import Mathlib

/-!
Verification development for the Fuzzy Atmo-Engine repository.

The repository's inference core is a Mamdani-style fuzzy control pipeline:
linguistic variables with trapezoidal membership functions
(`src/fuzzy_engine/membership_functions.py`), per-subsystem rule bases
(`particle_subsystem.py`, `gas_subsystem.py`, `other_subsystem.py`,
`master_system.py`), a forecast statistics preprocessor
(`forecast_preprocessor.py`), and an orchestration layer (`main.py`).

Membership functions, universes and rule bases are embedded from the source.
The generic inference step (rule firing with Zadeh operators, implication by
minimum, aggregation by maximum, centroid defuzzification) is delegated by
the source to the external `skfuzzy.control` library; it is modelled from the
specification (§4.3–§4.4), which prescribes exactly those operators and the
centroid formula `Σ(degree_i × universe_i) / Σ(degree_i)` over the
discretized output universe.

All numeric values are rationals.
-/

attribute [local semireducible] Rat.add Rat.mul Rat.sub Rat.inv

namespace FuzzyAtmo

/-- Trapezoidal membership function, as `skfuzzy.trapmf` evaluated at a single
point `x`: 0 below `a`, linear ramp on `[a,b)`, 1 on `[b,c]`, linear ramp on
`(c,d]`, 0 above `d`.  A zero-width ramp (`a = b` or `c = d`) behaves as a
step, never dividing by zero, because the ramp branch is unreachable then. -/
def trapmf (a b c d x : ℚ) : ℚ :=
  if x < a then 0
  else if x < b then (x - a) / (b - a)
  else if x ≤ c then 1
  else if x ≤ d then (d - x) / (d - c)
  else 0

/-- Triangular membership function, as `skfuzzy.trimf`: a trapezoid with a
zero-width plateau at `b`. -/
def trimf (a b c x : ℚ) : ℚ := trapmf a b b c x

/-- Modelled from the spec (§4.4, step 4): centroid defuzzification of a
fuzzy set `μ` sampled on the discretized universe `uni`,
`Σ(degree_i × universe_i) / Σ(degree_i)`.  The source delegates this to the
external `skfuzzy` library, which is not part of the repository. -/
def defuzz (uni : List ℚ) (μ : ℚ → ℚ) : ℚ :=
  ((uni.map (fun x => x * μ x)).sum) / ((uni.map μ).sum)

/-- `np.arange(0, n+1, 1)` as a list of rationals: the points `0, 1, …, n`. -/
def natUniverse (n : ℕ) : List ℚ := List.map Nat.cast (List.range (n + 1))

/-- `UNIVERSE_RISK = np.arange(0, 101, 1)` (membership_functions.py). -/
def uniRisk : List ℚ := natUniverse 100

/-- `universe_final_aqi = np.arange(0, 501, 1)` (define_master_variables). -/
def uniAQI : List ℚ := natUniverse 500

/-! ### Master-system variables (`define_master_variables`)

The three risk inputs `particle_risk_in`, `gas_risk_in`, `other_risk_in`
share one family of membership functions on the 0–100 universe, and the
same four trapezoids also define the `Particle_Risk` / `Gas_Risk` /
`Other_Risk` output variables of the subsystems. -/

def risk_low (x : ℚ) : ℚ := trapmf 0 0 15 30 x
def risk_medium (x : ℚ) : ℚ := trapmf 15 30 45 60 x
def risk_high (x : ℚ) : ℚ := trapmf 45 60 75 90 x
def risk_critical (x : ℚ) : ℚ := trapmf 75 90 100 100 x

/-- `Final_AQI` output terms on the 0–500 universe. -/
def aqi_good (x : ℚ) : ℚ := trapmf 0 0 40 60 x
def aqi_moderate (x : ℚ) : ℚ := trapmf 40 60 90 110 x
def aqi_unhealthy_S (x : ℚ) : ℚ := trapmf 90 110 140 160 x
def aqi_unhealthy (x : ℚ) : ℚ := trapmf 140 160 190 210 x
def aqi_hazardous (x : ℚ) : ℚ := trapmf 190 210 500 500 x

/-! ### Master-system rule base (`get_master_rules`)

Antecedent combinators are the Zadeh operators prescribed by the spec
(§4.3): `&` is `min`, `|` is `max`, `~` is `1 - ·`.  Python's `|`/`&` are
left-associative, matching the nesting below. -/

def masterRule1 (p g o : ℚ) : ℚ :=
  max (max (risk_critical p) (risk_critical g)) (risk_critical o)

def masterRule2 (p g o : ℚ) : ℚ :=
  min (max (max (risk_high p) (risk_high g)) (risk_high o))
    (min (min (1 - risk_critical p) (1 - risk_critical g)) (1 - risk_critical o))

def masterRule3 (p g o : ℚ) : ℚ :=
  min
    (min (max (max (risk_medium p) (risk_medium g)) (risk_medium o))
      (min (min (1 - risk_high p) (1 - risk_high g)) (1 - risk_high o)))
    (min (min (1 - risk_critical p) (1 - risk_critical g)) (1 - risk_critical o))

def masterRule3_5 (p g o : ℚ) : ℚ :=
  min
    (min
      (max (max (max (max (max
        (min (risk_low p) (risk_medium g))
        (min (risk_medium p) (risk_low g)))
        (min (risk_low p) (risk_medium o)))
        (min (risk_medium p) (risk_low o)))
        (min (risk_low g) (risk_medium o)))
        (min (risk_medium g) (risk_low o)))
      (min (min (1 - risk_high p) (1 - risk_high g)) (1 - risk_high o)))
    (min (min (1 - risk_critical p) (1 - risk_critical g)) (1 - risk_critical o))

def masterRule4 (p g o : ℚ) : ℚ :=
  min (min (risk_low p) (risk_low g)) (risk_low o)

/-- Modelled from the spec (§4.4, steps 2–3): the aggregated fuzzy set of the
`Final_AQI` output — each rule's consequent term clipped (by `min`) at the
rule's firing strength, all clipped sets joined pointwise by `max`.  The rule
base and terms are from `get_master_rules`; the implication/aggregation
operators are the spec's (the source delegates them to `skfuzzy`). -/
def aggMasterAQI (p g o x : ℚ) : ℚ :=
  max (min (masterRule1 p g o) (aqi_hazardous x))
    (max (min (masterRule2 p g o) (aqi_unhealthy x))
      (max (min (masterRule3 p g o) (aqi_moderate x))
        (max (min (masterRule3_5 p g o) (aqi_moderate x))
          (min (masterRule4 p g o) (aqi_good x)))))

/-- Defuzzified `Final_AQI` of the master engine for crisp inputs
`particle_risk_in = p`, `gas_risk_in = g`, `other_risk_in = o`. -/
def master_Final_AQI (p g o : ℚ) : ℚ := defuzz uniAQI (aggMasterAQI p g o)

/-! ### Gas-subsystem variables (`define_gas_variables`)

The `Gas_Risk` output terms are the same four trapezoids on `UNIVERSE_RISK`
as `risk_low` … `risk_critical` above. -/

def co_good (x : ℚ) : ℚ := trapmf 0 0 9000 10000 x
def co_moderate (x : ℚ) : ℚ := trapmf 9000 10000 12000 13000 x
def co_unhealthy (x : ℚ) : ℚ := trapmf 12000 13000 15000 16000 x
def co_hazardous (x : ℚ) : ℚ := trapmf 15000 16000 50000 50000 x

def no2_good (x : ℚ) : ℚ := trapmf 0 0 80 120 x
def no2_moderate (x : ℚ) : ℚ := trapmf 80 120 300 400 x
def no2_unhealthy (x : ℚ) : ℚ := trapmf 300 400 600 700 x
def no2_hazardous (x : ℚ) : ℚ := trapmf 600 700 2000 2000 x

def so2_good (x : ℚ) : ℚ := trapmf 0 0 80 100 x
def so2_moderate (x : ℚ) : ℚ := trapmf 80 100 300 400 x
def so2_unhealthy (x : ℚ) : ℚ := trapmf 300 400 700 900 x
def so2_hazardous (x : ℚ) : ℚ := trapmf 700 900 2000 2000 x

/-! ### Gas-subsystem rule base (`get_gas_rules`) -/

def gasRule1 (co no2 so2 : ℚ) : ℚ :=
  max (max (co_hazardous co) (no2_hazardous no2)) (so2_hazardous so2)

def gasRule2 (co no2 so2 : ℚ) : ℚ :=
  max (max (co_unhealthy co) (no2_unhealthy no2)) (so2_unhealthy so2)

def gasRule3 (co no2 so2 : ℚ) : ℚ :=
  max (max (co_moderate co) (no2_moderate no2)) (so2_moderate so2)

def gasRule4 (co no2 so2 : ℚ) : ℚ :=
  min (min (co_good co) (no2_good no2)) (so2_good so2)

/-- Aggregated fuzzy set of the `Gas_Risk` output (spec §4.4, steps 2–3):
implication by `min`, aggregation by `max`, over the four gas rules. -/
def aggGasRisk (co no2 so2 x : ℚ) : ℚ :=
  max (min (gasRule1 co no2 so2) (risk_critical x))
    (max (min (gasRule2 co no2 so2) (risk_high x))
      (max (min (gasRule3 co no2 so2) (risk_medium x))
        (min (gasRule4 co no2 so2) (risk_low x))))

/-- Defuzzified `Gas_Risk` of the gas engine. -/
def gas_Gas_Risk (co no2 so2 : ℚ) : ℚ := defuzz uniRisk (aggGasRisk co no2 so2)

/-! ### Particle-subsystem variables (`define_particle_variables`)

The `Particle_Risk` output terms are again `risk_low` … `risk_critical`. -/

def pm2_5_good (x : ℚ) : ℚ := trapmf 0 0 10 15 x
def pm2_5_moderate (x : ℚ) : ℚ := trapmf 10 15 30 40 x
def pm2_5_unhealthy (x : ℚ) : ℚ := trapmf 30 40 140 160 x
def pm2_5_hazardous (x : ℚ) : ℚ := trapmf 140 160 500 500 x

def pm10_good (x : ℚ) : ℚ := trapmf 0 0 40 60 x
def pm10_moderate (x : ℚ) : ℚ := trapmf 40 60 140 170 x
def pm10_unhealthy (x : ℚ) : ℚ := trapmf 140 170 340 360 x
def pm10_hazardous (x : ℚ) : ℚ := trapmf 340 360 600 600 x

def aod_low (x : ℚ) : ℚ := trapmf 0 0 (1/2) 1 x
def aod_medium (x : ℚ) : ℚ := trapmf (1/2) 1 2 3 x
def aod_high (x : ℚ) : ℚ := trapmf 2 3 5 5 x

def dust_low (x : ℚ) : ℚ := trapmf 0 0 50 150 x
def dust_medium (x : ℚ) : ℚ := trapmf 50 150 300 450 x
def dust_high (x : ℚ) : ℚ := trapmf 300 450 1000 1000 x

/-! ### Particle-subsystem rule base (`get_particle_rules`) -/

def particleRule1 (p25 : ℚ) : ℚ := pm2_5_hazardous p25
def particleRule2 (p10 : ℚ) : ℚ := pm10_hazardous p10
def particleRule3 (p25 : ℚ) : ℚ := pm2_5_unhealthy p25
def particleRule4 (p10 : ℚ) : ℚ := pm10_unhealthy p10
def particleRule5 (aod dust : ℚ) : ℚ := min (dust_high dust) (aod_high aod)
def particleRule6 (aod dust : ℚ) : ℚ := min (dust_medium dust) (aod_medium aod)
def particleRule7 (p25 p10 : ℚ) : ℚ := max (pm2_5_moderate p25) (pm10_moderate p10)
def particleRule8 (p25 p10 : ℚ) : ℚ := min (pm2_5_moderate p25) (pm10_moderate p10)
def particleRule9 (p25 p10 aod dust : ℚ) : ℚ :=
  min (min (min (pm2_5_good p25) (pm10_good p10)) (aod_low aod)) (dust_low dust)
def particleRule10 (p25 p10 : ℚ) : ℚ := min (pm2_5_good p25) (pm10_good p10)

/-- Aggregated fuzzy set of the `Particle_Risk` output over the ten particle
rules (rules 1–2 → `critical`, 3–5 → `high`, 6–8 → `medium`,
9–10 → `low`). -/
def aggParticleRisk (p25 p10 aod dust x : ℚ) : ℚ :=
  max (min (particleRule1 p25) (risk_critical x))
    (max (min (particleRule2 p10) (risk_critical x))
      (max (min (particleRule3 p25) (risk_high x))
        (max (min (particleRule4 p10) (risk_high x))
          (max (min (particleRule5 aod dust) (risk_high x))
            (max (min (particleRule6 aod dust) (risk_medium x))
              (max (min (particleRule7 p25 p10) (risk_medium x))
                (max (min (particleRule8 p25 p10) (risk_medium x))
                  (max (min (particleRule9 p25 p10 aod dust) (risk_low x))
                    (min (particleRule10 p25 p10) (risk_low x))))))))))

/-- Defuzzified `Particle_Risk` of the particle engine. -/
def particle_Particle_Risk (p25 p10 aod dust : ℚ) : ℚ :=
  defuzz uniRisk (aggParticleRisk p25 p10 aod dust)

/-! ### Evaluation sessions and input validation

Modelled from the spec: the Evaluation Session (§3, §4.4, §6) requires a
crisp value for every declared input variable before `compute()`, and fails
with `IncompleteInputError` naming the missing variable otherwise.  The
source delegates this per-call state to the external `skfuzzy`
`ControlSystemSimulation`, which is not part of the repository. -/

/-- Modelled from the spec: the failure taxonomy of `evaluate` (§6, §7) —
`IncompleteInputError` names a declared input with no crisp value,
`UndefinedDefuzzificationError` names an output whose aggregated set is
all-zero. -/
inductive EvalError where
  | incompleteInput (missing : String)
  | undefinedDefuzz (output : String)
deriving DecidableEq

/-- First declared input variable that has no value in `provided`. -/
def findMissingInput (declared : List String) (provided : List (String × ℚ)) :
    Option String :=
  declared.find? (fun n => provided.all (fun kv => kv.1 != n))

/-- Modelled from the spec: one `compute()` call of an Evaluation Session
(§4.4) — if any declared input variable has no crisp value the evaluation
fails with `IncompleteInputError` naming it; otherwise the engine body runs
on the provided values. -/
def computeSession (declared : List String) (provided : List (String × ℚ))
    (body : (String → ℚ) → List (String × ℚ)) :
    Except EvalError (List (String × ℚ)) :=
  match findMissingInput declared provided with
  | some n => .error (.incompleteInput n)
  | none =>
      .ok (body (fun k => (((provided.find? (fun kv => kv.1 == k)).map Prod.snd).getD 0)))

/-- Declared input variables of the gas engine (`define_gas_variables`). -/
def gasDeclaredInputs : List String := ["co", "no2", "so2"]

/-- Output computation of the gas engine, over looked-up crisp inputs. -/
def gasEngineBody (get : String → ℚ) : List (String × ℚ) :=
  [("Gas_Risk", gas_Gas_Risk (get "co") (get "no2") (get "so2"))]

/-- `evaluate` for the gas engine: session validation then compute. -/
def gasEvaluate (provided : List (String × ℚ)) :
    Except EvalError (List (String × ℚ)) :=
  computeSession gasDeclaredInputs provided gasEngineBody

/-- Declared input variables of the master engine. -/
def masterDeclaredInputs : List String :=
  ["particle_risk_in", "gas_risk_in", "other_risk_in"]

/-- Output computation of the master engine (`Final_AQI` only; the
`Recommendation` output is analogous and unused by the claims below). -/
def masterEngineBody (get : String → ℚ) : List (String × ℚ) :=
  [("Final_AQI",
    master_Final_AQI (get "particle_risk_in") (get "gas_risk_in") (get "other_risk_in"))]

/-- `evaluate` for the master engine. -/
def masterEvaluate (provided : List (String × ℚ)) :
    Except EvalError (List (String × ℚ)) :=
  computeSession masterDeclaredInputs provided masterEngineBody

/-! ### Forecast preprocessor (`forecast_preprocessor.py`)

`preprocess_hourly_data` takes the API's `hourly` dict of aligned arrays.
The dict is modelled as a structure of optional arrays (a key absent from
the Python dict is `none`); the returned dict of statistics is an
association list. -/

/-- The `hourly` data mapping: ISO-8601 timestamp strings under `time`,
hourly concentration arrays under the pollutant keys.  `none` models a key
absent from the dict (`hourly_data.get(key, [])` yields `[]`). -/
structure HourlyData where
  time : Option (List String)
  pm2_5 : Option (List ℚ)
  sulphur_dioxide : Option (List ℚ)
  nitrogen_dioxide : Option (List ℚ)
  carbon_monoxide : Option (List ℚ)
  ozone : Option (List ℚ)

/-- `np.nanmean` over a (NaN-free) array: sum divided by length. -/
def listMean (l : List ℚ) : ℚ := l.sum / (l.length : ℚ)

/-- `np.nanmax` over a nonempty array (0 is never used: callers guard). -/
def listMax : List ℚ → ℚ
  | [] => 0
  | x :: xs => xs.foldl max x

/-- `np.nanargmax`: index of the first occurrence of the maximum. -/
def argmaxIdx : List ℚ → ℕ
  | [] => 0
  | [_] => 0
  | x :: y :: rest =>
      let t := argmaxIdx (y :: rest)
      if x < (y :: rest).getD t 0 then t + 1 else 0

/-- Modelled from the spec: hour-of-day extraction from an ISO-8601
timestamp string (§4.6) — the source delegates to Python's
`datetime.fromisoformat(...).hour`, which is standard-library code, not part
of the repository.  Reads `"YYYY-MM-DD[T ]HH…"`: the two digits at
positions 11–12, when they form an hour 0–23; any other shape fails. -/
def parseISOHour (s : String) : Option ℕ :=
  let cs := s.data
  if 13 ≤ cs.length then
    let sep := cs.getD 10 'x'
    let d1 := cs.getD 11 'x'
    let d2 := cs.getD 12 'x'
    if (sep = 'T' ∨ sep = ' ') ∧ d1.isDigit ∧ d2.isDigit then
      let hr := (d1.toNat - 48) * 10 + (d2.toNat - 48)
      if hr ≤ 23 then some hr else none
    else none
  else none

/-- `preprocess_hourly_data(hourly_data, hours_to_forecast=24)`: aggregates
the hourly arrays into the six scalar statistics fed to the forecast engine;
returns the empty mapping when the time axis is absent or empty. -/
def preprocess_hourly_data (hourly_data : HourlyData)
    (hours_to_forecast : ℕ := 24) : List (String × ℚ) :=
  match hourly_data.time with
  | none => []
  | some times =>
    if times = [] then []
    else
      let slice_hours := min times.length hours_to_forecast
      let getSliced : Option (List ℚ) → List ℚ := fun a => (a.getD []).take slice_hours
      let time_array := times.take slice_hours
      let pm2_5_array := getSliced hourly_data.pm2_5
      let so2_array := getSliced hourly_data.sulphur_dioxide
      let no2_array := getSliced hourly_data.nitrogen_dioxide
      let co_array := getSliced hourly_data.carbon_monoxide
      let o3_array := getSliced hourly_data.ozone
      let pmStats : List (String × ℚ) :=
        if pm2_5_array = [] then
          [("pm_avg", 0), ("pm_max", 0), ("pm_hours_bad", 0), ("pm_peak_hour", -1)]
        else
          let peak_index := argmaxIdx pm2_5_array
          let pm_peak_hour : ℚ :=
            match time_array.get? peak_index with
            | none => -1
            | some ts =>
                match parseISOHour ts with
                | some h => (h : ℚ)
                | none => -1
          [("pm_avg", listMean pm2_5_array),
           ("pm_max", listMax pm2_5_array),
           ("pm_hours_bad", ((pm2_5_array.filter (fun v => 40 < v)).length : ℚ)),
           ("pm_peak_hour", pm_peak_hour)]
      let so2_norm := if so2_array = [] then 0 else listMean so2_array / 700
      let no2_norm := if no2_array = [] then 0 else listMean no2_array / 600
      let co_norm := if co_array = [] then 0 else listMean co_array / 15000
      pmStats ++
        [("gas_norm_risk", max (max so2_norm no2_norm) co_norm * 100),
         ("o3_max", if o3_array = [] then 0 else listMax o3_array)]

/-! ### Orchestration-layer input extraction (`main.py`, `run_fuzzy_logic`)

The `current` data mapping is modelled as a function from field name to
`none` (key absent), `some none` (key present with a null value) or
`some (some v)` (key present with value `v`). -/

/-- `current_data.get(key, 0) or 0`: an absent key defaults to 0 and a
null/falsy value is replaced by 0 (for a rational, `v or 0` is `v` when
`v ≠ 0` and `0` when `v = 0`). -/
def getOr0 (current : String → Option (Option ℚ)) (key : String) : ℚ :=
  match current key with
  | none => 0
  | some none => 0
  | some (some v) => v

/-- The `inputs_values` dict fed to the particle engine (main.py). -/
def particleInputs (current : String → Option (Option ℚ)) : List (String × ℚ) :=
  [("pm2_5", getOr0 current "pm2_5"),
   ("pm10", getOr0 current "pm10"),
   ("aod", getOr0 current "aerosol_optical_depth"),
   ("dust", getOr0 current "dust")]

/-- The `inputs_values` dict fed to the gas engine (main.py). -/
def gasInputs (current : String → Option (Option ℚ)) : List (String × ℚ) :=
  [("co", getOr0 current "carbon_monoxide"),
   ("no2", getOr0 current "nitrogen_dioxide"),
   ("so2", getOr0 current "sulphur_dioxide")]

/-- The `inputs_values` dict fed to the other-pollutant engine (main.py). -/
def otherInputs (current : String → Option (Option ℚ)) : List (String × ℚ) :=
  [("o3", getOr0 current "ozone"),
   ("nh3", getOr0 current "ammonia")]

/-- Engine input name ↔ API field name, over all nine pollutant fields
consumed by `run_fuzzy_logic`. -/
def pollutantKeyMap : List (String × String) :=
  [("pm2_5", "pm2_5"), ("pm10", "pm10"), ("aod", "aerosol_optical_depth"),
   ("dust", "dust"), ("co", "carbon_monoxide"), ("no2", "nitrogen_dioxide"),
   ("so2", "sulphur_dioxide"), ("o3", "ozone"), ("nh3", "ammonia")]

/-! ### Kernel-evaluable summation

`sumAux` sums `f 0 + … + f (n-1)` with an accumulator forced to normal form
at every step (by matching through the `Rat` constructor), so that concrete
defuzzification sums evaluate without deep recursion. -/

def sumAux (f : ℕ → ℚ) : ℕ → ℚ → ℚ
  | 0, acc => acc
  | n + 1, ⟨nu, de, h1, h2⟩ => sumAux f n (⟨nu, de, h1, h2⟩ + f n)

/-- The spec's per-gas contribution to `gas_norm_risk` (§4.6): the mean of
the array truncated to the horizon, divided by the gas's hazard threshold; a
missing or empty array contributes 0. -/
def gasMeanTerm (arr : Option (List ℚ)) (slice : ℕ) (threshold : ℚ) : ℚ :=
  if (arr.getD []).take slice = [] then 0
  else listMean ((arr.getD []).take slice) / threshold

/-! ## Theorems -/

theorem trapmf_nonneg (a b c d x : ℚ) : 0 ≤ trapmf a b c d x := by
  unfold trapmf
  split_ifs with h1 h2 h3 h4
  · exact le_refl 0
  · have h1' := not_lt.mp h1
    exact div_nonneg (by linarith) (by linarith)
  · exact zero_le_one
  · have h3' := not_le.mp h3
    exact div_nonneg (by linarith) (by linarith)
  · exact le_refl 0

theorem trapmf_le_one (a b c d x : ℚ) : trapmf a b c d x ≤ 1 := by
  unfold trapmf
  split_ifs with h1 h2 h3 h4
  · exact zero_le_one
  · have h1' := not_lt.mp h1
    rw [div_le_one (by linarith)]
    linarith
  · exact le_refl 1
  · have h3' := not_le.mp h3
    rw [div_le_one (by linarith)]
    linarith
  · exact zero_le_one

theorem sumAux_eq (f : ℕ → ℚ) :
    ∀ (n : ℕ) (acc : ℚ), sumAux f n acc = acc + ((List.range n).map f).sum := by
  intro n
  induction n with
  | zero => intro acc; simp [sumAux]
  | succ m ih =>
    intro acc
    obtain ⟨nu, de, h1, h2⟩ := acc
    rw [sumAux, ih, List.range_succ]
    simp
    ring

/-- Centroid defuzzification over `0, …, N` as two strict left-to-right
sums, for kernel evaluation at concrete inputs. -/
theorem defuzz_natUniverse (N : ℕ) (μ : ℚ → ℚ) :
    defuzz (natUniverse N) μ =
      sumAux (fun i => (i : ℚ) * μ (i : ℚ)) (N + 1) 0 /
        sumAux (fun i => μ (i : ℚ)) (N + 1) 0 := by
  simp only [defuzz, natUniverse, List.map_map, sumAux_eq, zero_add, Function.comp_def]

theorem risk_critical_eq_one (x : ℚ) (h1 : 90 ≤ x) (h2 : x ≤ 100) :
    risk_critical x = 1 := by
  unfold risk_critical trapmf
  rw [if_neg (not_lt.mpr (by linarith)), if_neg (not_lt.mpr h1), if_pos h2]

theorem risk_low_eq_zero (x : ℚ) (h : 30 < x) : risk_low x = 0 := by
  unfold risk_low trapmf
  rw [if_neg (not_lt.mpr (by linarith)), if_neg (not_lt.mpr (by linarith)),
    if_neg (not_le.mpr (by linarith)), if_neg (not_le.mpr h)]

/-- When some master input sits on the `critical` plateau, only rule 1
fires: the aggregated `Final_AQI` set is exactly the `hazardous` curve. -/
theorem aggMasterAQI_critical (p g o : ℚ)
    (hp0 : 0 ≤ p) (hp1 : p ≤ 100) (hg0 : 0 ≤ g) (hg1 : g ≤ 100)
    (ho0 : 0 ≤ o) (ho1 : o ≤ 100)
    (hcrit : 90 ≤ p ∨ 90 ≤ g ∨ 90 ≤ o) :
    aggMasterAQI p g o = aqi_hazardous := by
  have cp1 : risk_critical p ≤ 1 := trapmf_le_one 75 90 100 100 p
  have cg1 : risk_critical g ≤ 1 := trapmf_le_one 75 90 100 100 g
  have co1 : risk_critical o ≤ 1 := trapmf_le_one 75 90 100 100 o
  have hhp : risk_high p ≤ 1 := trapmf_le_one 45 60 75 90 p
  have hhg : risk_high g ≤ 1 := trapmf_le_one 45 60 75 90 g
  have hho : risk_high o ≤ 1 := trapmf_le_one 45 60 75 90 o
  have lpn : (0:ℚ) ≤ risk_low p := trapmf_nonneg 0 0 15 30 p
  have lgn : (0:ℚ) ≤ risk_low g := trapmf_nonneg 0 0 15 30 g
  have lon : (0:ℚ) ≤ risk_low o := trapmf_nonneg 0 0 15 30 o
  -- the negated-critical guard shared by rules 2, 3 and 3.5 vanishes,
  -- and the all-low rule 4 vanishes, whichever input is critical
  have hguard :
      min (min (1 - risk_critical p) (1 - risk_critical g)) (1 - risk_critical o)
        = 0 := by
    rcases hcrit with hc | hc | hc
    · rw [risk_critical_eq_one p hc hp1, sub_self,
        min_eq_left (by linarith : (0:ℚ) ≤ 1 - risk_critical g),
        min_eq_left (by linarith : (0:ℚ) ≤ 1 - risk_critical o)]
    · rw [risk_critical_eq_one g hc hg1, sub_self,
        min_eq_right (by linarith : (0:ℚ) ≤ 1 - risk_critical p),
        min_eq_left (by linarith : (0:ℚ) ≤ 1 - risk_critical o)]
    · rw [risk_critical_eq_one o hc ho1, sub_self,
        min_eq_right
          (le_min (by linarith : (0:ℚ) ≤ 1 - risk_critical p)
            (by linarith : (0:ℚ) ≤ 1 - risk_critical g))]
  have hR1 : masterRule1 p g o = 1 := by
    unfold masterRule1
    rcases hcrit with hc | hc | hc
    · rw [risk_critical_eq_one p hc hp1, max_eq_left cg1, max_eq_left co1]
    · rw [risk_critical_eq_one g hc hg1, max_eq_right cp1, max_eq_left co1]
    · rw [risk_critical_eq_one o hc ho1, max_eq_right (max_le cp1 cg1)]
  have hR2 : masterRule2 p g o = 0 := by
    unfold masterRule2
    rw [hguard]
    exact min_eq_right
      ((trapmf_nonneg 45 60 75 90 o).trans (le_max_right _ _))
  have hR3 : masterRule3 p g o = 0 := by
    unfold masterRule3
    rw [hguard]
    refine min_eq_right (le_min ?_ ?_)
    · exact (trapmf_nonneg 15 30 45 60 o).trans (le_max_right _ _)
    · exact le_min (le_min (by linarith) (by linarith)) (by linarith)
  have hR35 : masterRule3_5 p g o = 0 := by
    unfold masterRule3_5
    rw [hguard]
    refine min_eq_right (le_min ?_ ?_)
    · exact (le_min (trapmf_nonneg 15 30 45 60 g) lon).trans (le_max_right _ _)
    · exact le_min (le_min (by linarith) (by linarith)) (by linarith)
  have hR4 : masterRule4 p g o = 0 := by
    unfold masterRule4
    rcases hcrit with hc | hc | hc
    · rw [risk_low_eq_zero p (by linarith), min_eq_left lgn, min_eq_left lon]
    · rw [risk_low_eq_zero g (by linarith), min_eq_right lpn, min_eq_left lon]
    · rw [risk_low_eq_zero o (by linarith), min_eq_right (le_min lpn lgn)]
  funext x
  unfold aggMasterAQI aqi_hazardous aqi_unhealthy aqi_moderate aqi_good
  rw [hR1, hR2, hR3, hR35, hR4,
    min_eq_right (trapmf_le_one 190 210 500 500 x),
    min_eq_left (trapmf_nonneg 140 160 190 210 x),
    min_eq_left (trapmf_nonneg 40 60 90 110 x),
    min_eq_left (trapmf_nonneg 0 0 40 60 x),
    max_self, max_self, max_self,
    max_eq_left (trapmf_nonneg 190 210 500 500 x)]

set_option maxRecDepth 40000 in
/-- The centroid of the bare `hazardous` output curve on the 0–500 AQI
universe is 210467/601 ≈ 350.2, in particular at least 190. -/
theorem hazardous_centroid_ge_190 : (190:ℚ) ≤ defuzz uniAQI aqi_hazardous := by
  rw [show uniAQI = natUniverse 500 from rfl, defuzz_natUniverse]
  decide

/-- C1: for every master-engine evaluation in which at least one of the
three inputs `particle_risk_in`, `gas_risk_in`, `other_risk_in` lies on the
`critical` plateau (≥ 90, membership degree 1) of the 0–100 input universe,
the defuzzified `Final_AQI` is at least 190 (the hazardous band), regardless
of the other two inputs: the any-critical rule has no negated-antecedent
guard, while its firing kills rules 2, 3, 3.5 (via their `~critical` guards)
and rule 4 (whose `low` conjunct is 0 beyond 30). -/
theorem master_any_critical_final_aqi_ge_190 (p g o : ℚ)
    (hp0 : 0 ≤ p) (hp1 : p ≤ 100) (hg0 : 0 ≤ g) (hg1 : g ≤ 100)
    (ho0 : 0 ≤ o) (ho1 : o ≤ 100)
    (hcrit : 90 ≤ p ∨ 90 ≤ g ∨ 90 ≤ o) :
    (190:ℚ) ≤ master_Final_AQI p g o := by
  rw [master_Final_AQI,
    aggMasterAQI_critical p g o hp0 hp1 hg0 hg1 ho0 ho1 hcrit]
  exact hazardous_centroid_ge_190

/-- C1 witness: concrete inputs with `particle_risk_in` on the critical
plateau and the other two low. -/
theorem master_any_critical_final_aqi_ge_190_witness :
    (190:ℚ) ≤ master_Final_AQI 90 5 20 :=
  master_any_critical_final_aqi_ge_190 90 5 20 (by norm_num) (by norm_num)
    (by norm_num) (by norm_num) (by norm_num) (by norm_num)
    (Or.inl (by norm_num))

set_option maxRecDepth 40000 in
/-- C2: the gas engine at `co = 20000`, `no2 = 0`, `so2 = 0` defuzzifies
`Gas_Risk` to 4913/54 ≈ 90.98 ≥ 90 (critical band): `co` sits on the
`hazardous` plateau, so the any-hazardous rule fires at degree 1, and the
all-good rule's conjunction contains `co['good'] = 0`. -/
theorem gas_co_hazardous_critical_band : (90:ℚ) ≤ gas_Gas_Risk 20000 0 0 := by
  rw [gas_Gas_Risk, show uniRisk = natUniverse 100 from rfl, defuzz_natUniverse]
  decide

set_option maxRecDepth 40000 in
/-- C3 counterexample: the particle engine at `pm2_5 = 150`, `pm10 = 200`,
`aod = 1`, `dust = 100` defuzzifies `Particle_Risk` to 47945/782 ≈ 61.3,
which is not ≥ 75: `pm2_5 = 150` fires `hazardous` only at degree 1/2 while
`pm10 = 200` fires `unhealthy` (→ `high`) at degree 1, so the centroid
lands in the high band, not the critical band. -/
theorem particle_e2e_not_critical_band :
    ¬ (75:ℚ) ≤ particle_Particle_Risk 150 200 1 100 := by
  rw [particle_Particle_Risk, show uniRisk = natUniverse 100 from rfl,
    defuzz_natUniverse]
  decide

set_option maxRecDepth 40000 in
/-- C3 amended: at those inputs the defuzzified `Particle_Risk` lies in the
high band — at least 45 but strictly below the critical band at 75. -/
theorem particle_e2e_high_band :
    (45:ℚ) ≤ particle_Particle_Risk 150 200 1 100 ∧
      particle_Particle_Risk 150 200 1 100 < 75 := by
  have h : particle_Particle_Risk 150 200 1 100 = 47945 / 782 := by
    rw [particle_Particle_Risk, show uniRisk = natUniverse 100 from rfl,
      defuzz_natUniverse]
    decide
  rw [h]
  norm_num

set_option maxRecDepth 40000 in
/-- C5: the master engine at `particle_risk_in = 20`, `gas_risk_in = 40`,
`other_risk_in = 10` defuzzifies `Final_AQI` to exactly 75, inside the
moderate band [40, 110]: the transitional rule 3.5 (and rule 3) fire at
degree 1, so the aggregated set is the full `moderate` curve. -/
theorem master_transitional_moderate_band :
    (40:ℚ) ≤ master_Final_AQI 20 40 10 ∧ master_Final_AQI 20 40 10 ≤ 110 := by
  have h : master_Final_AQI 20 40 10 = 75 := by
    rw [master_Final_AQI, show uniAQI = natUniverse 500 from rfl,
      defuzz_natUniverse]
    decide
  rw [h]
  norm_num

theorem lookup_cons_of_ne {β : Type} (a k : String) (b : β) (l : List (String × β))
    (h : (a == k) = false) : List.lookup a ((k, b) :: l) = List.lookup a l := by
  simp [List.lookup, h]

theorem lookup_cons_self {β : Type} (a : String) (b : β) (l : List (String × β)) :
    List.lookup a ((a, b) :: l) = some b := by
  simp [List.lookup]

/-- C4: for every engine (any declared-input list and output body) and every
evaluation in which some declared input variable has been given no crisp
value, `compute` fails with `IncompleteInputError` naming a variable that is
declared and missing — it does not succeed, fail differently, or name
nothing. -/
theorem compute_missing_input_incomplete_error
    (declared : List String) (provided : List (String × ℚ))
    (body : (String → ℚ) → List (String × ℚ))
    (h : ∃ n ∈ declared, ∀ kv ∈ provided, kv.1 ≠ n) :
    ∃ n, computeSession declared provided body =
          Except.error (EvalError.incompleteInput n) ∧
        n ∈ declared ∧ ∀ kv ∈ provided, kv.1 ≠ n := by
  have hsome : (findMissingInput declared provided).isSome := by
    rw [findMissingInput, List.find?_isSome]
    obtain ⟨n, hn, hall⟩ := h
    refine ⟨n, hn, ?_⟩
    rw [List.all_eq_true]
    intro kv hkv
    simpa using hall kv hkv
  obtain ⟨m, hm⟩ := Option.isSome_iff_exists.mp hsome
  have hm' : findMissingInput declared provided = some m := hm
  rw [findMissingInput] at hm'
  have hmem : m ∈ declared := List.mem_of_find?_eq_some hm'
  have hpm := List.find?_some hm'
  refine ⟨m, ?_, hmem, ?_⟩
  · rw [computeSession, hm]
  · intro kv hkv
    have := List.all_eq_true.mp hpm kv hkv
    simpa using this

/-- C4 witness: the gas engine evaluated with only `co` supplied. -/
theorem compute_missing_input_incomplete_error_witness :
    ∃ n, computeSession gasDeclaredInputs [("co", (5:ℚ))] gasEngineBody =
          Except.error (EvalError.incompleteInput n) ∧
        n ∈ gasDeclaredInputs ∧ ∀ kv ∈ [("co", (5:ℚ))], kv.1 ≠ n :=
  compute_missing_input_incomplete_error gasDeclaredInputs [("co", (5:ℚ))]
    gasEngineBody (by decide)

/-- C6: when the `time` key is absent or maps to an empty sequence,
`preprocess_hourly_data` returns the empty mapping, whatever the pollutant
arrays hold. -/
theorem preprocess_missing_time_empty (d : HourlyData) (hor : ℕ)
    (hd : d.time = none ∨ d.time = some []) :
    preprocess_hourly_data d hor = [] := by
  rcases hd with hd | hd <;> simp [preprocess_hourly_data, hd]

/-- C6 witness: no `time` key while pollutant arrays are present. -/
theorem preprocess_missing_time_empty_witness :
    preprocess_hourly_data ⟨none, some [1, 2], some [3], none, none, some [4]⟩ 24 = [] :=
  preprocess_missing_time_empty ⟨none, some [1, 2], some [3], none, none, some [4]⟩ 24
    (Or.inl rfl)

/-- C7: with a non-empty time axis, the returned `gas_norm_risk` is
100 times the maximum of mean(so2)/700, mean(no2)/600 and mean(co)/15000
over the truncated horizon, a missing or empty gas array contributing 0. -/
theorem preprocess_gas_norm_risk_formula (d : HourlyData) (hor : ℕ) (ts : List String)
    (ht : d.time = some ts) (hne : ts ≠ []) :
    (preprocess_hourly_data d hor).lookup "gas_norm_risk" =
      some (100 * max (max (gasMeanTerm d.sulphur_dioxide (min ts.length hor) 700)
          (gasMeanTerm d.nitrogen_dioxide (min ts.length hor) 600))
        (gasMeanTerm d.carbon_monoxide (min ts.length hor) 15000)) := by
  simp only [preprocess_hourly_data, ht, if_neg hne, gasMeanTerm]
  by_cases hpm : (d.pm2_5.getD []).take (min ts.length hor) = []
  · simp only [if_pos hpm, List.cons_append, List.nil_append]
    rw [lookup_cons_of_ne "gas_norm_risk" "pm_avg" _ _ rfl,
      lookup_cons_of_ne "gas_norm_risk" "pm_max" _ _ rfl,
      lookup_cons_of_ne "gas_norm_risk" "pm_hours_bad" _ _ rfl,
      lookup_cons_of_ne "gas_norm_risk" "pm_peak_hour" _ _ rfl,
      lookup_cons_self, mul_comm _ (100:ℚ)]
  · simp only [if_neg hpm, List.cons_append, List.nil_append]
    rw [lookup_cons_of_ne "gas_norm_risk" "pm_avg" _ _ rfl,
      lookup_cons_of_ne "gas_norm_risk" "pm_max" _ _ rfl,
      lookup_cons_of_ne "gas_norm_risk" "pm_hours_bad" _ _ rfl,
      lookup_cons_of_ne "gas_norm_risk" "pm_peak_hour" _ _ rfl,
      lookup_cons_self, mul_comm _ (100:ℚ)]

/-- C7 witness: two hours of data, `no2` absent, `so2` and `co` present. -/
theorem preprocess_gas_norm_risk_formula_witness :
    (preprocess_hourly_data
        ⟨some ["2024-01-01T00:00", "2024-01-01T01:00"], some [10, 50],
          some [700], none, some [30000, 0], none⟩ 24).lookup "gas_norm_risk" =
      some (100 * max (max
          (gasMeanTerm (some [700]) (min ["2024-01-01T00:00", "2024-01-01T01:00"].length 24) 700)
          (gasMeanTerm none (min ["2024-01-01T00:00", "2024-01-01T01:00"].length 24) 600))
        (gasMeanTerm (some [30000, 0]) (min ["2024-01-01T00:00", "2024-01-01T01:00"].length 24) 15000)) :=
  preprocess_gas_norm_risk_formula
    ⟨some ["2024-01-01T00:00", "2024-01-01T01:00"], some [10, 50],
      some [700], none, some [30000, 0], none⟩ 24
    ["2024-01-01T00:00", "2024-01-01T01:00"] rfl (by decide)

/-- C8: with a non-empty time axis, `pm_hours_bad` counts the truncated
pm2.5 entries strictly above 40, and `pm_peak_hour` is the hour-of-day
parsed from the timestamp at the argmax index of the truncated pm2.5 array —
with sentinel -1 when the pm2.5 array is empty or the timestamp fails to
parse. -/
theorem preprocess_pm_stats_spec (d : HourlyData) (hor : ℕ) (ts : List String)
    (pm : List ℚ) (ht : d.time = some ts) (hne : ts ≠ [])
    (hpm : pm = (d.pm2_5.getD []).take (min ts.length hor)) :
    (pm ≠ [] → (preprocess_hourly_data d hor).lookup "pm_hours_bad" =
        some (((pm.filter (fun v => 40 < v)).length : ℚ))) ∧
    (pm = [] → (preprocess_hourly_data d hor).lookup "pm_peak_hour" = some (-1)) ∧
    (∀ s hr, pm ≠ [] →
        (ts.take (min ts.length hor)).get? (argmaxIdx pm) = some s →
        parseISOHour s = some hr →
        (preprocess_hourly_data d hor).lookup "pm_peak_hour" = some (hr : ℚ)) ∧
    (∀ s, pm ≠ [] →
        (ts.take (min ts.length hor)).get? (argmaxIdx pm) = some s →
        parseISOHour s = none →
        (preprocess_hourly_data d hor).lookup "pm_peak_hour" = some (-1)) := by
  subst hpm
  refine ⟨?_, ?_, ?_, ?_⟩
  · intro hne'
    simp only [preprocess_hourly_data, ht, if_neg hne, if_neg hne',
      List.cons_append, List.nil_append]
    rw [lookup_cons_of_ne "pm_hours_bad" "pm_avg" _ _ rfl,
      lookup_cons_of_ne "pm_hours_bad" "pm_max" _ _ rfl,
      lookup_cons_self]
  · intro hemp
    simp only [preprocess_hourly_data, ht, if_neg hne, if_pos hemp,
      List.cons_append, List.nil_append]
    rw [lookup_cons_of_ne "pm_peak_hour" "pm_avg" _ _ rfl,
      lookup_cons_of_ne "pm_peak_hour" "pm_max" _ _ rfl,
      lookup_cons_of_ne "pm_peak_hour" "pm_hours_bad" _ _ rfl,
      lookup_cons_self]
  · intro s hr hne' hs hparse
    simp only [preprocess_hourly_data, ht, if_neg hne, if_neg hne',
      List.cons_append, List.nil_append, hs, hparse]
    rw [lookup_cons_of_ne "pm_peak_hour" "pm_avg" _ _ rfl,
      lookup_cons_of_ne "pm_peak_hour" "pm_max" _ _ rfl,
      lookup_cons_of_ne "pm_peak_hour" "pm_hours_bad" _ _ rfl,
      lookup_cons_self]
  · intro s hne' hs hparse
    simp only [preprocess_hourly_data, ht, if_neg hne, if_neg hne',
      List.cons_append, List.nil_append, hs, hparse]
    rw [lookup_cons_of_ne "pm_peak_hour" "pm_avg" _ _ rfl,
      lookup_cons_of_ne "pm_peak_hour" "pm_max" _ _ rfl,
      lookup_cons_of_ne "pm_peak_hour" "pm_hours_bad" _ _ rfl,
      lookup_cons_self]

/-- C8 witness: the pm2.5 spike of 50 sits at index 1, whose timestamp
encodes hour-of-day 1; one entry exceeds 40. -/
theorem preprocess_pm_stats_spec_witness :
    (preprocess_hourly_data
        ⟨some ["2024-01-01T00:00", "2024-01-01T01:00", "2024-01-01T02:00"],
          some [10, 50, 20], none, none, none, none⟩ 24).lookup "pm_peak_hour" =
        some ((1:ℕ) : ℚ) ∧
      (preprocess_hourly_data
        ⟨some ["2024-01-01T00:00", "2024-01-01T01:00", "2024-01-01T02:00"],
          some [10, 50, 20], none, none, none, none⟩ 24).lookup "pm_hours_bad" =
        some ((([(10:ℚ), 50, 20].filter (fun v => 40 < v)).length : ℚ)) := by
  have h := preprocess_pm_stats_spec
    ⟨some ["2024-01-01T00:00", "2024-01-01T01:00", "2024-01-01T02:00"],
      some [10, 50, 20], none, none, none, none⟩ 24
    ["2024-01-01T00:00", "2024-01-01T01:00", "2024-01-01T02:00"]
    [10, 50, 20] rfl (by decide) (by decide)
  exact ⟨h.2.2.1 "2024-01-01T01:00" 1 (by decide) (by decide) (by decide),
    h.1 (by decide)⟩

/-- C9: in `run_fuzzy_logic`, a pollutant field that is absent from the
`current` mapping, or present with a null/zero value, reaches its subsystem
engine as the crisp value 0 (via `current_data.get(key, 0) or 0`), for each
of the nine pollutant fields. -/
theorem orchestrator_missing_pollutant_zero
    (current : String → Option (Option ℚ)) (engKey apiKey : String)
    (hmap : (engKey, apiKey) ∈ pollutantKeyMap)
    (habs : current apiKey = none ∨ current apiKey = some none ∨
      current apiKey = some (some 0)) :
    (particleInputs current ++ gasInputs current ++ otherInputs current).lookup engKey
      = some 0 := by
  have hval : getOr0 current apiKey = 0 := by
    rcases habs with h | h | h <;> simp [getOr0, h]
  simp only [pollutantKeyMap, List.mem_cons, List.not_mem_nil, or_false,
    Prod.mk.injEq] at hmap
  rcases hmap with ⟨h1, h2⟩ | ⟨h1, h2⟩ | ⟨h1, h2⟩ | ⟨h1, h2⟩ | ⟨h1, h2⟩ |
    ⟨h1, h2⟩ | ⟨h1, h2⟩ | ⟨h1, h2⟩ | ⟨h1, h2⟩ <;> subst h1 <;> subst h2 <;>
    simp only [particleInputs, gasInputs, otherInputs, List.cons_append,
      List.nil_append, hval] <;>
    simp [List.lookup]

/-- C9 witness: an entirely empty `current` mapping feeds `co = 0`. -/
theorem orchestrator_missing_pollutant_zero_witness :
    (particleInputs (fun _ => none) ++ gasInputs (fun _ => none) ++
        otherInputs (fun _ => none)).lookup "co" = some 0 :=
  orchestrator_missing_pollutant_zero (fun _ => none) "co" "carbon_monoxide"
    (by decide) (Or.inl rfl)

/-- C10: `preprocess_hourly_data` is all-or-nothing — it returns either the
empty mapping or a mapping whose keys are exactly `pm_avg, pm_max,
pm_hours_bad, pm_peak_hour, gas_norm_risk, o3_max`, never a partial
subset. -/
theorem preprocess_all_or_nothing (d : HourlyData) (hor : ℕ) :
    preprocess_hourly_data d hor = [] ∨
      (preprocess_hourly_data d hor).map Prod.fst =
        ["pm_avg", "pm_max", "pm_hours_bad", "pm_peak_hour", "gas_norm_risk",
          "o3_max"] := by
  rcases htime : d.time with _ | ts
  · left
    simp [preprocess_hourly_data, htime]
  · by_cases hts : ts = []
    · left
      simp [preprocess_hourly_data, htime, hts]
    · right
      simp only [preprocess_hourly_data, htime, if_neg hts]
      by_cases hpm : (d.pm2_5.getD []).take (min ts.length hor) = [] <;>
        simp [hpm]

end FuzzyAtmo
